import Mathlib

/-
Verification of the employee self-service action handlers
(goals, timesheets, appraisals, tasks, calendar, settings).

The handlers are embedded shallowly: the relational store is a record of
lists, the identity provider is an `Option String` session argument, and
each server action becomes a pure function from session, store and payload
to a result envelope paired with the successor store.  Numeric payload
fields (hours, progress, ratings) are JavaScript numbers in the source and
are modelled as rationals.  Cache invalidation and logging are effect-free
from the store's point of view and are omitted.
-/

namespace PMT

/-- Timestamp modelled as whole days since the Unix epoch plus milliseconds
within the day, mirroring the JavaScript `Date` values the handlers
manipulate (`setDate` moves `day`, `setHours` rewrites `ms`). -/
structure DateTime where
  day : Int
  ms : Nat
  deriving DecidableEq, Repr

/-- Total milliseconds since the epoch (`Date.prototype.getTime`). -/
def DateTime.time (d : DateTime) : Int := d.day * 86400000 + d.ms

/-- Weekday with 0 = Sunday, ..., 6 = Saturday (`Date.prototype.getDay`;
1970-01-01 was a Thursday). -/
def DateTime.weekday (d : DateTime) : Int := (d.day + 4) % 7

/-- Advance a date by whole days keeping the time of day (`setDate`). -/
def DateTime.addDays (d : DateTime) (n : Int) : DateTime := ⟨d.day + n, d.ms⟩

/-- Week bucketing shared by `getCurrentTimesheet` and `addTimesheetEntry`:
`weekStart.setDate(date.getDate() - (dayOfWeek === 0 ? 6 : dayOfWeek - 1));
weekStart.setHours(0, 0, 0, 0)`. -/
def weekStartOf (d : DateTime) : DateTime :=
  ⟨d.day - (if d.weekday = 0 then 6 else d.weekday - 1), 0⟩

/-- Week end: `weekEnd.setDate(weekStart.getDate() + 6);
weekEnd.setHours(23, 59, 59, 999)`. -/
def weekEndOf (d : DateTime) : DateTime :=
  ⟨(weekStartOf d).day + 6, 86399999⟩

inductive TimesheetStatus where
  | DRAFT
  | SUBMITTED
  | APPROVED
  deriving DecidableEq, Repr

inductive AppraisalStatus where
  | DRAFT
  | IN_PROGRESS
  | COMPLETED
  deriving DecidableEq, Repr

def AppraisalStatus.toName : AppraisalStatus → String
  | .DRAFT => "DRAFT"
  | .IN_PROGRESS => "IN_PROGRESS"
  | .COMPLETED => "COMPLETED"

structure Preferences where
  theme : String
  language : String
  timezone : String
  deriving DecidableEq, Repr

structure NotificationSettings where
  emailNotifications : Bool
  projectUpdates : Bool
  teamActivity : Bool
  loginAlerts : Bool
  deriving DecidableEq, Repr

structure User where
  id : String
  preferences : Option Preferences
  notificationSettings : Option NotificationSettings
  deriving DecidableEq, Repr

structure Goal where
  id : String
  userId : String
  title : String
  description : Option String
  targetDate : Option DateTime
  progress : Rat
  status : String
  deriving DecidableEq, Repr

structure Timesheet where
  id : String
  userId : String
  weekStart : DateTime
  weekEnd : DateTime
  totalHours : Rat
  status : TimesheetStatus
  deriving DecidableEq, Repr

structure TimesheetEntry where
  id : String
  timesheetId : String
  date : DateTime
  projectId : String
  hours : Rat
  description : Option String
  billable : Bool
  deriving DecidableEq, Repr

structure AppraisalReview where
  id : String
  userId : String
  cycleId : String
  selfReview : Option String
  rating : Option Rat
  status : AppraisalStatus
  submittedAt : Option DateTime
  deriving DecidableEq, Repr

structure AppraisalCycle where
  id : String
  name : String
  startDate : DateTime
  endDate : DateTime
  deriving DecidableEq, Repr

structure Task where
  id : String
  title : String
  description : Option String
  status : String
  priority : String
  dueDate : Option DateTime
  projectId : Option String
  assigneeId : Option String
  estimatedHours : Option Rat
  actualHours : Option Rat
  deriving DecidableEq, Repr

structure PTORequest where
  id : String
  userId : String
  startDate : DateTime
  endDate : DateTime
  status : String
  ptype : String
  reason : Option String
  deriving DecidableEq, Repr

/-- The relational store: one list per entity table.  `nextId` drives fresh
record ids for `create` calls. -/
structure Store where
  users : List User
  goals : List Goal
  timesheets : List Timesheet
  entries : List TimesheetEntry
  appraisals : List AppraisalReview
  cycles : List AppraisalCycle
  tasks : List Task
  ptoRequests : List PTORequest
  nextId : Nat
  deriving DecidableEq, Repr

/-- Uniform response envelope:
`{ success: true, data?, message? }` or `{ success: false, error }`. -/
inductive ActionResult (α : Type) where
  | ok (data : Option α) (message : Option String)
  | err (error : String)
  deriving DecidableEq, Repr

/-- Whether the envelope is a failure. -/
def ActionResult.isErr {α : Type} : ActionResult α → Bool
  | .ok _ _ => false
  | .err _ => true

def freshId (s : Store) : String := "rec-" ++ toString s.nextId

/- ---------------------------------------------------------------------
Goals (src/app/actions/employee-goals.ts)
--------------------------------------------------------------------- -/

/-- Ownership-scoped lookup: `goal.findFirst({ where: { id, userId } })`. -/
def findGoal (s : Store) (uid gid : String) : Option Goal :=
  s.goals.find? (fun g => g.id == gid && g.userId == uid)

structure GoalCreate where
  title : String
  description : Option String
  targetDate : Option DateTime
  deriving DecidableEq, Repr

def createGoal (session : Option String) (s : Store) (data : GoalCreate) :
    ActionResult Goal × Store :=
  match session with
  | none => (.err "Unauthorized", s)
  | some uid =>
    let g : Goal :=
      { id := freshId s, userId := uid, title := data.title,
        description := data.description, targetDate := data.targetDate,
        progress := 0, status := "active" }
    (.ok (some g) none, { s with goals := s.goals ++ [g], nextId := s.nextId + 1 })

structure GoalUpdate where
  title : Option String
  description : Option String
  targetDate : Option DateTime
  progress : Option Rat
  status : Option String
  deriving DecidableEq, Repr

/-- Field-wise update as performed by `goal.update({ data: updateData })`:
absent payload fields leave the stored field alone, and no range check is
applied to `progress`. -/
def applyGoalUpdate (g : Goal) (u : GoalUpdate) : Goal :=
  { g with
    title := u.title.getD g.title
    description := match u.description with | some d => some d | none => g.description
    targetDate := match u.targetDate with | some d => some d | none => g.targetDate
    progress := u.progress.getD g.progress
    status := u.status.getD g.status }

def updateGoal (session : Option String) (s : Store) (goalId : String) (u : GoalUpdate) :
    ActionResult Goal × Store :=
  match session with
  | none => (.err "Unauthorized", s)
  | some uid =>
    match findGoal s uid goalId with
    | none => (.err "Goal not found or access denied", s)
    | some g =>
      (.ok (some (applyGoalUpdate g u)) none,
        { s with goals := s.goals.map (fun x => if x.id == goalId then applyGoalUpdate x u else x) })

def updateGoalProgress (session : Option String) (s : Store) (goalId : String) (progress : Rat) :
    ActionResult Goal × Store :=
  match session with
  | none => (.err "Unauthorized", s)
  | some uid =>
    match findGoal s uid goalId with
    | none => (.err "Goal not found or access denied", s)
    | some g =>
      let validProgress := max 0 (min 100 progress)
      let newStatus :=
        if 100 ≤ validProgress then "completed"
        else if 0 < validProgress ∧ g.status = "active" then "in-progress"
        else g.status
      (.ok (some { g with progress := validProgress, status := newStatus }) none,
        { s with goals := s.goals.map (fun x =>
            if x.id == goalId then { x with progress := validProgress, status := newStatus } else x) })

def deleteGoal (session : Option String) (s : Store) (goalId : String) :
    ActionResult Unit × Store :=
  match session with
  | none => (.err "Unauthorized", s)
  | some uid =>
    match findGoal s uid goalId with
    | none => (.err "Goal not found or access denied", s)
    | some _ =>
      (.ok none none, { s with goals := s.goals.filter (fun x => !(x.id == goalId)) })

/- ---------------------------------------------------------------------
Timesheets (src/app/actions/employee-timesheet.ts)
--------------------------------------------------------------------- -/

/-- Sum of the hours of all entries of one timesheet; this is the
`timesheetEntry.aggregate({ _sum: { hours } })` step, with the source's
`_sum.hours || 0` collapsing the empty case to zero exactly as the sum of
an empty list does. -/
def sumHours (entries : List TimesheetEntry) (tsId : String) : Rat :=
  ((entries.filter (fun e => e.timesheetId == tsId)).map (fun e => e.hours)).sum

def setTotalHours (l : List Timesheet) (tsId : String) (h : Rat) : List Timesheet :=
  l.map (fun t => if t.id == tsId then { t with totalHours := h } else t)

/-- Aggregate recomputation performed after every entry mutation:
re-sum the entries of the parent timesheet and persist the total. -/
def recomputeTotal (s : Store) (tsId : String) : Store :=
  { s with timesheets := setTotalHours s.timesheets tsId (sumHours s.entries tsId) }

def getCurrentTimesheet (session : Option String) (s : Store) (today : DateTime) :
    ActionResult Timesheet × Store :=
  match session with
  | none => (.err "Unauthorized", s)
  | some uid =>
    let ws := weekStartOf today
    let we := weekEndOf today
    match s.timesheets.find? (fun t => t.userId == uid && t.weekStart == ws) with
    | some t => (.ok (some t) none, s)
    | none =>
      let t : Timesheet :=
        { id := freshId s, userId := uid, weekStart := ws, weekEnd := we,
          totalHours := 0, status := .DRAFT }
      (.ok (some t) none, { s with timesheets := s.timesheets ++ [t], nextId := s.nextId + 1 })

structure AddEntryInput where
  date : Option DateTime
  projectId : Option String
  hours : Rat
  description : Option String
  billable : Option Bool
  deriving DecidableEq, Repr

/-- Shared tail of `addTimesheetEntry` once the week's timesheet `t` has
been fetched or created (store `s1`): refuse APPROVED, create the entry,
recompute the total. -/
def addEntryCore (s1 : Store) (t : Timesheet) (entryDate : DateTime) (pid : String)
    (data : AddEntryInput) : ActionResult TimesheetEntry × Store :=
  if t.status == .APPROVED then (.err "Cannot edit approved timesheet", s1)
  else
    let entry : TimesheetEntry :=
      { id := freshId s1, timesheetId := t.id, date := entryDate, projectId := pid,
        hours := data.hours, description := data.description,
        billable := data.billable.getD false }
    let s2 := { s1 with entries := s1.entries ++ [entry], nextId := s1.nextId + 1 }
    (.ok (some entry) none, recomputeTotal s2 t.id)

def addTimesheetEntry (session : Option String) (s : Store) (data : AddEntryInput) :
    ActionResult TimesheetEntry × Store :=
  match session with
  | none => (.err "Unauthorized", s)
  | some uid =>
    match data.date with
    | none => (.err "Date is required", s)
    | some entryDate =>
      match data.projectId with
      | none => (.err "Project is required", s)
      | some pid =>
        if data.hours ≤ 0 ∨ 24 < data.hours then
          (.err "Hours must be between 0 and 24", s)
        else
          let ws := weekStartOf entryDate
          let we := weekEndOf entryDate
          match s.timesheets.find? (fun t => t.userId == uid && t.weekStart == ws) with
          | some t => addEntryCore s t entryDate pid data
          | none =>
            let t : Timesheet :=
              { id := freshId s, userId := uid, weekStart := ws, weekEnd := we,
                totalHours := 0, status := .DRAFT }
            addEntryCore
              { s with timesheets := s.timesheets ++ [t], nextId := s.nextId + 1 }
              t entryDate pid data

structure EntryUpdate where
  hours : Option Rat
  description : Option String
  billable : Option Bool
  deriving DecidableEq, Repr

/-- Field-wise entry update (`timesheetEntry.update({ data })`); note the
source applies no range check to the new hours value. -/
def applyEntryUpdate (e : TimesheetEntry) (u : EntryUpdate) : TimesheetEntry :=
  { e with
    hours := u.hours.getD e.hours
    description := match u.description with | some d => some d | none => e.description
    billable := u.billable.getD e.billable }

/-- Ownership-scoped entry lookup with its parent joined:
`timesheetEntry.findFirst({ where: { id, timesheet: { userId } },
include: { timesheet: true } })`. -/
def findOwnedEntry (s : Store) (uid entryId : String) :
    Option (TimesheetEntry × Timesheet) :=
  s.entries.findSome? (fun e =>
    if e.id == entryId then
      match s.timesheets.find? (fun t => t.id == e.timesheetId) with
      | some t => if t.userId == uid then some (e, t) else none
      | none => none
    else none)

def updateTimesheetEntry (session : Option String) (s : Store) (entryId : String)
    (u : EntryUpdate) : ActionResult TimesheetEntry × Store :=
  match session with
  | none => (.err "Unauthorized", s)
  | some uid =>
    match findOwnedEntry s uid entryId with
    | none => (.err "Entry not found or access denied", s)
    | some (e, t) =>
      if t.status == .APPROVED then (.err "Cannot edit approved timesheet", s)
      else
        let s1 := { s with entries := s.entries.map (fun x =>
          if x.id == entryId then applyEntryUpdate x u else x) }
        (.ok (some (applyEntryUpdate e u)) none, recomputeTotal s1 e.timesheetId)

def deleteTimesheetEntry (session : Option String) (s : Store) (entryId : String) :
    ActionResult Unit × Store :=
  match session with
  | none => (.err "Unauthorized", s)
  | some uid =>
    match findOwnedEntry s uid entryId with
    | none => (.err "Entry not found or access denied", s)
    | some (e, t) =>
      if t.status == .APPROVED then (.err "Cannot delete from approved timesheet", s)
      else
        let s1 := { s with entries := s.entries.filter (fun x => !(x.id == entryId)) }
        (.ok none none, recomputeTotal s1 e.timesheetId)

def submitTimesheet (session : Option String) (s : Store) (timesheetId : String) :
    ActionResult Timesheet × Store :=
  match session with
  | none => (.err "Unauthorized", s)
  | some uid =>
    match s.timesheets.find? (fun t => t.id == timesheetId && t.userId == uid) with
    | none => (.err "Timesheet not found or access denied", s)
    | some t =>
      if !(t.status == .DRAFT) then (.err "Timesheet is not in draft status", s)
      else
        (.ok (some { t with status := .SUBMITTED }) none,
          { s with timesheets := s.timesheets.map (fun x =>
              if x.id == timesheetId then { x with status := TimesheetStatus.SUBMITTED } else x) })

/- ---------------------------------------------------------------------
Appraisals (src/app/actions/employee-appraisal.ts)
--------------------------------------------------------------------- -/

/-- Ownership-scoped lookup: `appraisalReview.findFirst({ where: { id, userId } })`. -/
def findAppraisal (s : Store) (uid aid : String) : Option AppraisalReview :=
  s.appraisals.find? (fun a => a.id == aid && a.userId == uid)

def updateSelfReview (session : Option String) (s : Store) (appraisalId : String)
    (selfReview : String) (rating : Option Rat) : ActionResult AppraisalReview × Store :=
  match session with
  | none => (.err "Unauthorized", s)
  | some uid =>
    match findAppraisal s uid appraisalId with
    | none => (.err "Appraisal not found or access denied", s)
    | some a =>
      if a.status == .COMPLETED then (.err "Cannot edit completed appraisal", s)
      else
        let upd := fun (x : AppraisalReview) =>
          { x with selfReview := some selfReview,
                   rating := match rating with | some r => some r | none => x.rating }
        (.ok (some (upd a)) none,
          { s with appraisals := s.appraisals.map (fun x =>
              if x.id == appraisalId then upd x else x) })

def submitAppraisal (session : Option String) (s : Store) (appraisalId : String)
    (now : DateTime) : ActionResult AppraisalReview × Store :=
  match session with
  | none => (.err "Unauthorized", s)
  | some uid =>
    match findAppraisal s uid appraisalId with
    | none => (.err "Appraisal not found or access denied", s)
    | some a =>
      if !(a.status == .DRAFT) then (.err "Appraisal is not in draft status", s)
      else if (match a.selfReview with | none => true | some r => r == "") then
        (.err "Self-review is required before submission", s)
      else
        let upd := fun (x : AppraisalReview) =>
          { x with status := AppraisalStatus.IN_PROGRESS, submittedAt := some now }
        (.ok (some (upd a)) none,
          { s with appraisals := s.appraisals.map (fun x =>
              if x.id == appraisalId then upd x else x) })

def getAppraisalById (session : Option String) (s : Store) (appraisalId : String) :
    ActionResult AppraisalReview × Store :=
  match session with
  | none => (.err "Unauthorized", s)
  | some uid =>
    match findAppraisal s uid appraisalId with
    | none => (.err "Appraisal not found or access denied", s)
    | some a => (.ok (some a) none, s)

/- ---------------------------------------------------------------------
Tasks (src/app/actions/employee-tasks.ts)
--------------------------------------------------------------------- -/

structure TaskCreate where
  title : String
  description : Option String
  priority : Option String
  projectId : Option String
  dueDate : Option DateTime
  estimatedHours : Option Rat
  deriving DecidableEq, Repr

def createTask (session : Option String) (s : Store) (data : TaskCreate) :
    ActionResult Task × Store :=
  match session with
  | none => (.err "Unauthorized", s)
  | some uid =>
    let t : Task :=
      { id := freshId s, title := data.title, description := data.description,
        status := "TODO",
        priority := match data.priority with
          | some p => if p == "" then "MEDIUM" else p
          | none => "MEDIUM",
        dueDate := data.dueDate,
        projectId := match data.projectId with
          | some p => if p == "" then none else some p
          | none => none,
        assigneeId := some uid,
        estimatedHours := match data.estimatedHours with
          | some h => if h == 0 then none else some h
          | none => none,
        actualHours := none }
    (.ok (some t) none, { s with tasks := s.tasks ++ [t], nextId := s.nextId + 1 })

/-- Ownership-scoped lookup: `task.findFirst({ where: { id, assigneeId } })`. -/
def findTask (s : Store) (uid taskId : String) : Option Task :=
  s.tasks.find? (fun t => t.id == taskId && t.assigneeId == some uid)

def updateTaskStatus (session : Option String) (s : Store) (taskId newStatus : String) :
    ActionResult Task × Store :=
  match session with
  | none => (.err "Unauthorized", s)
  | some uid =>
    match findTask s uid taskId with
    | none => (.err "Task not found or access denied", s)
    | some t =>
      (.ok (some { t with status := newStatus }) none,
        { s with tasks := s.tasks.map (fun x =>
            if x.id == taskId then { x with status := newStatus } else x) })

def logTaskHours (session : Option String) (s : Store) (taskId : String) (hours : Rat) :
    ActionResult Task × Store :=
  match session with
  | none => (.err "Unauthorized", s)
  | some uid =>
    match findTask s uid taskId with
    | none => (.err "Task not found or access denied", s)
    | some t =>
      let currentHours := t.actualHours.getD 0
      (.ok (some { t with actualHours := some (currentHours + hours) }) none,
        { s with tasks := s.tasks.map (fun x =>
            if x.id == taskId then { x with actualHours := some (currentHours + hours) } else x) })

/- ---------------------------------------------------------------------
Settings (src/app/actions/settings.ts)
--------------------------------------------------------------------- -/

structure PreferencesPayload where
  theme : Option String
  language : Option String
  timezone : Option String
  deriving DecidableEq, Repr

/-- JavaScript `value || fallback` on an optional string field: absent and
empty values both fall back. -/
def strOrDefault (v : Option String) (d : String) : String :=
  match v with
  | some x => if x == "" then d else x
  | none => d

def updateUserPreferences (session : Option String) (s : Store)
    (payload : PreferencesPayload) : ActionResult Preferences × Store :=
  match session with
  | none => (.err "Unauthorized", s)
  | some uid =>
    let preferencesData : Preferences :=
      { theme := strOrDefault payload.theme "light"
        language := strOrDefault payload.language "English"
        timezone := strOrDefault payload.timezone "UTC" }
    (.ok (some preferencesData) (some "Preferences updated successfully"),
      { s with users := s.users.map (fun u =>
          if u.id == uid then { u with preferences := some preferencesData } else u) })

structure NotificationPayload where
  emailNotifications : Option Bool
  projectUpdates : Option Bool
  teamActivity : Option Bool
  loginAlerts : Option Bool
  deriving DecidableEq, Repr

def updateNotificationSettings (session : Option String) (s : Store)
    (payload : NotificationPayload) : ActionResult NotificationSettings × Store :=
  match session with
  | none => (.err "Unauthorized", s)
  | some uid =>
    let notificationData : NotificationSettings :=
      { emailNotifications := payload.emailNotifications.getD true
        projectUpdates := payload.projectUpdates.getD true
        teamActivity := payload.teamActivity.getD true
        loginAlerts := payload.loginAlerts.getD true }
    (.ok (some notificationData) (some "Notification settings updated successfully"),
      { s with users := s.users.map (fun u =>
          if u.id == uid then { u with notificationSettings := some notificationData } else u) })

/-- The source's delete handler authenticates, then returns success without
touching the store (its body is a placeholder comment). -/
def deleteUserAccount (session : Option String) (s : Store) :
    ActionResult Unit × Store :=
  match session with
  | none => (.err "Unauthorized", s)
  | some _ => (.ok none (some "Account deleted successfully"), s)

/- ---------------------------------------------------------------------
Calendar (src/app/actions/employee-calendar.ts)
--------------------------------------------------------------------- -/

structure CalendarEvent where
  id : String
  title : String
  etype : String
  date : DateTime
  priority : Option String
  status : Option String
  description : Option String
  deriving DecidableEq, Repr

/-- Inclusive window test used by every range filter in the handler
(`gte: start, lte: end` and the PTO loop's comparisons). -/
def inWindow (a b d : DateTime) : Bool :=
  decide (a.time ≤ d.time) && decide (d.time ≤ b.time)

/-- JavaScript `value || undefined` on a string field. -/
def strOpt (x : String) : Option String := if x == "" then none else some x

/-- Tasks of the caller with a due date inside the window, one event each. -/
def taskEvents (s : Store) (uid : String) (a b : DateTime) : List CalendarEvent :=
  (s.tasks.filter (fun t => t.assigneeId == some uid &&
      (match t.dueDate with | some d => inWindow a b d | none => false))).map
    (fun t =>
      { id := "task-" ++ t.id, title := t.title, etype := "task",
        date := (match t.dueDate with | some d => d | none => ⟨0, 0⟩),
        priority := strOpt t.priority, status := strOpt t.status,
        description := t.description })

/-- Appraisal reviews of the caller joined with their cycle, kept when the
cycle's end date lies in the window. -/
def apprJoin (s : Store) (uid : String) (a b : DateTime) :
    List (AppraisalReview × AppraisalCycle) :=
  s.appraisals.flatMap (fun r =>
    if r.userId == uid then
      match s.cycles.find? (fun c => c.id == r.cycleId) with
      | some c => if inWindow a b c.endDate then [(r, c)] else []
      | none => []
    else [])

def apprEvents (s : Store) (uid : String) (a b : DateTime) : List CalendarEvent :=
  (apprJoin s uid a b).map (fun rc =>
    { id := "appraisal-" ++ rc.1.id, title := "Appraisal: " ++ rc.2.name,
      etype := "appraisal", date := rc.2.endDate, priority := none,
      status := some rc.1.status.toName, description := none })

/-- The PTO expansion loop: `while (currentDate <= endDate)` stepping one
day at a time. -/
def ptoDays (current endD : DateTime) : List DateTime :=
  if current.time ≤ endD.time then current :: ptoDays (current.addDays 1) endD
  else []
termination_by (endD.time + 1 - current.time).toNat
decreasing_by
  simp only [DateTime.time, DateTime.addDays] at *
  omega

/-- Approved PTO requests of the caller overlapping the window, expanded to
one event per day that falls inside the window. -/
def ptoEvents (s : Store) (uid : String) (a b : DateTime) : List CalendarEvent :=
  (s.ptoRequests.filter (fun p => p.userId == uid && p.status == "APPROVED" &&
      (inWindow a b p.startDate || inWindow a b p.endDate))).flatMap
    (fun p => ((ptoDays p.startDate p.endDate).filter (fun d => inWindow a b d)).map
      (fun d =>
        { id := "pto-" ++ p.id ++ "-" ++ toString d.time, title := "PTO: " ++ p.ptype,
          etype := "pto", date := d, priority := none, status := some p.status,
          description := p.reason }))

/-- Chronological comparison used by `events.sort((a, b) => a.date - b.date)`. -/
def evLe (x y : CalendarEvent) : Prop := x.date.time ≤ y.date.time

instance : DecidableRel evLe := fun _ _ => Int.decLe _ _

instance : IsTotal CalendarEvent evLe := ⟨fun _ _ => Int.le_total _ _⟩

instance : IsTrans CalendarEvent evLe := ⟨fun _ _ _ h1 h2 => le_trans h1 h2⟩

/-- The merged, chronologically sorted event list. -/
def calendarData (s : Store) (uid : String) (a b : DateTime) : List CalendarEvent :=
  List.insertionSort evLe
    (taskEvents s uid a b ++ apprEvents s uid a b ++ ptoEvents s uid a b)

def getMyCalendarEvents (session : Option String) (s : Store)
    (startDate endDate : Option DateTime) (now : DateTime) :
    ActionResult (List CalendarEvent) × Store :=
  match session with
  | none => (.err "Unauthorized", s)
  | some uid =>
    let a := startDate.getD now
    let b := endDate.getD (a.addDays 30)
    (.ok (some (calendarData s uid a b)) none, s)

/- ---------------------------------------------------------------------
Claim theorems
--------------------------------------------------------------------- -/

/-- C7: the week-bucketing computation shared by `getCurrentTimesheet` and
`addTimesheetEntry` maps every date to a week start that is the most recent
Monday at 00:00:00.000 — six days earlier on Sunday, otherwise weekday − 1
days earlier with Monday = 1 — and to a week end exactly six days after the
week start at 23:59:59.999. -/
theorem week_bucketing (d : DateTime) :
    (weekStartOf d).weekday = 1 ∧
    (weekStartOf d).ms = 0 ∧
    (weekStartOf d).day ≤ d.day ∧
    d.day - (weekStartOf d).day < 7 ∧
    (weekStartOf d).day = d.day - (if d.weekday = 0 then 6 else d.weekday - 1) ∧
    (weekEndOf d).day = (weekStartOf d).day + 6 ∧
    (weekEndOf d).ms = 86399999 := by
  refine ⟨?_, rfl, ?_, ?_, rfl, rfl, rfl⟩ <;>
  · simp only [weekStartOf, DateTime.weekday]
    split <;> omega

/-- C2: with no resolvable caller identity, every embedded action handler
returns the `Unauthorized` failure envelope and performs no store write. -/
theorem unauthorized_uniform :
    (∀ s today, getCurrentTimesheet none s today = (.err "Unauthorized", s)) ∧
    (∀ s d, addTimesheetEntry none s d = (.err "Unauthorized", s)) ∧
    (∀ s i u, updateTimesheetEntry none s i u = (.err "Unauthorized", s)) ∧
    (∀ s i, deleteTimesheetEntry none s i = (.err "Unauthorized", s)) ∧
    (∀ s i, submitTimesheet none s i = (.err "Unauthorized", s)) ∧
    (∀ s d, createGoal none s d = (.err "Unauthorized", s)) ∧
    (∀ s i u, updateGoal none s i u = (.err "Unauthorized", s)) ∧
    (∀ s i p, updateGoalProgress none s i p = (.err "Unauthorized", s)) ∧
    (∀ s i, deleteGoal none s i = (.err "Unauthorized", s)) ∧
    (∀ s i r q, updateSelfReview none s i r q = (.err "Unauthorized", s)) ∧
    (∀ s i n, submitAppraisal none s i n = (.err "Unauthorized", s)) ∧
    (∀ s i, getAppraisalById none s i = (.err "Unauthorized", s)) ∧
    (∀ s i st, updateTaskStatus none s i st = (.err "Unauthorized", s)) ∧
    (∀ s i h, logTaskHours none s i h = (.err "Unauthorized", s)) ∧
    (∀ s d, createTask none s d = (.err "Unauthorized", s)) ∧
    (∀ s p, updateUserPreferences none s p = (.err "Unauthorized", s)) ∧
    (∀ s p, updateNotificationSettings none s p = (.err "Unauthorized", s)) ∧
    (∀ s, deleteUserAccount none s = (.err "Unauthorized", s)) ∧
    (∀ s a b n, getMyCalendarEvents none s a b n = (.err "Unauthorized", s)) :=
  ⟨fun _ _ => rfl, fun _ _ => rfl, fun _ _ _ => rfl, fun _ _ => rfl, fun _ _ => rfl,
   fun _ _ => rfl, fun _ _ _ => rfl, fun _ _ _ => rfl, fun _ _ => rfl,
   fun _ _ _ _ => rfl, fun _ _ _ => rfl, fun _ _ => rfl, fun _ _ _ => rfl,
   fun _ _ _ => rfl, fun _ _ => rfl, fun _ _ => rfl, fun _ _ => rfl, fun _ => rfl,
   fun _ _ _ _ => rfl⟩

/-- C9: for every authenticated caller, `deleteUserAccount` reports
success with the deletion message while leaving the store — including the
caller's user record and every owned record — completely unchanged. -/
theorem delete_account_noop (uid : String) (s : Store) :
    deleteUserAccount (some uid) s =
      (.ok none (some "Account deleted successfully"), s) := rfl

/-- C10: `updateUserPreferences` replaces the caller's whole stored
preferences object; any field omitted from (or empty in) the payload is
overwritten with its default and any previously stored value is discarded. -/
theorem preferences_replace (uid : String) (s : Store) (payload : PreferencesPayload) :
    (updateUserPreferences (some uid) s payload).1 =
      .ok (some ⟨strOrDefault payload.theme "light",
                 strOrDefault payload.language "English",
                 strOrDefault payload.timezone "UTC"⟩)
        (some "Preferences updated successfully") ∧
    ∀ u ∈ (updateUserPreferences (some uid) s payload).2.users, u.id = uid →
      u.preferences = some ⟨strOrDefault payload.theme "light",
        strOrDefault payload.language "English",
        strOrDefault payload.timezone "UTC"⟩ := by
  refine ⟨rfl, ?_⟩
  intro u hu hid
  simp only [updateUserPreferences, List.mem_map] at hu
  obtain ⟨x, -, hxu⟩ := hu
  by_cases h : x.id = uid
  · subst hxu
    simp [h]
  · subst hxu
    rw [if_neg (by simp [h])] at hid
    exact absurd hid h

def c10store : Store :=
  ⟨[⟨"u", some ⟨"dark", "French", "IST"⟩, none⟩], [], [], [], [], [], [], [], 0⟩

def c10payload : PreferencesPayload := ⟨none, some "", some "Asia/Kolkata"⟩

def c10user : User := ⟨"u", some ⟨"light", "English", "Asia/Kolkata"⟩, none⟩

theorem preferences_replace_witness :
    (updateUserPreferences (some "u") c10store c10payload).1 =
      .ok (some ⟨"light", "English", "Asia/Kolkata"⟩)
        (some "Preferences updated successfully") ∧
    c10user ∈ (updateUserPreferences (some "u") c10store c10payload).2.users ∧
    c10user.preferences = some ⟨"light", "English", "Asia/Kolkata"⟩ :=
  ⟨(preferences_replace "u" c10store c10payload).1, by decide,
   (preferences_replace "u" c10store c10payload).2 c10user (by decide) (by decide)⟩

/- Ownership-miss lookup lemmas shared by the authorization theorems. -/

theorem findGoal_eq_none {s : Store} {uid gid : String}
    (h : ∀ g ∈ s.goals, ¬(g.id = gid ∧ g.userId = uid)) :
    findGoal s uid gid = none := by
  rw [findGoal, List.find?_eq_none]
  intro g hg
  simp only [Bool.and_eq_true, beq_iff_eq]
  exact h g hg

theorem findOwnedTimesheet_eq_none {s : Store} {uid tid : String}
    (h : ∀ t ∈ s.timesheets, ¬(t.id = tid ∧ t.userId = uid)) :
    s.timesheets.find? (fun t => t.id == tid && t.userId == uid) = none := by
  rw [List.find?_eq_none]
  intro t ht
  simp only [Bool.and_eq_true, beq_iff_eq]
  exact h t ht

theorem findAppraisal_eq_none {s : Store} {uid aid : String}
    (h : ∀ a ∈ s.appraisals, ¬(a.id = aid ∧ a.userId = uid)) :
    findAppraisal s uid aid = none := by
  rw [findAppraisal, List.find?_eq_none]
  intro a ha
  simp only [Bool.and_eq_true, beq_iff_eq]
  exact h a ha

theorem findTask_eq_none {s : Store} {uid kid : String}
    (h : ∀ t ∈ s.tasks, ¬(t.id = kid ∧ t.assigneeId = some uid)) :
    findTask s uid kid = none := by
  rw [findTask, List.find?_eq_none]
  intro t ht
  simp only [Bool.and_eq_true, beq_iff_eq]
  exact h t ht

theorem findOwnedEntry_eq_none {s : Store} {uid eid : String}
    (h : ∀ e ∈ s.entries, e.id = eid →
      ∀ t ∈ s.timesheets, t.id = e.timesheetId → t.userId ≠ uid) :
    findOwnedEntry s uid eid = none := by
  rw [findOwnedEntry, List.findSome?_eq_none_iff]
  intro e he
  by_cases h1 : e.id = eid
  · rw [if_pos (by simp [h1])]
    cases hf : s.timesheets.find? (fun t => t.id == e.timesheetId) with
    | none => rfl
    | some t =>
      have hmem : t ∈ s.timesheets := List.mem_of_find?_eq_some hf
      have hts : t.id = e.timesheetId := by simpa using List.find?_some hf
      have hne : t.userId ≠ uid := h e he h1 t hmem hts
      simp [hne]
  · rw [if_neg (by simp [h1])]

/-- C1: every ownership-scoped fetch/update/delete handler, called with an
id that does not belong to a record owned by the caller (directly or
through the owning parent timesheet), returns the merged
not-found/access-denied failure and leaves the store unchanged. -/
theorem ownership_guard (s : Store) (uid gid eid tid aid kid : String)
    (gu : GoalUpdate) (gp : Rat) (eu : EntryUpdate) (sr : String) (rr : Option Rat)
    (now : DateTime) (kst : String) (kh : Rat)
    (hg : ∀ g ∈ s.goals, ¬(g.id = gid ∧ g.userId = uid))
    (he : ∀ e ∈ s.entries, e.id = eid →
      ∀ t ∈ s.timesheets, t.id = e.timesheetId → t.userId ≠ uid)
    (ht : ∀ t ∈ s.timesheets, ¬(t.id = tid ∧ t.userId = uid))
    (ha : ∀ a ∈ s.appraisals, ¬(a.id = aid ∧ a.userId = uid))
    (hk : ∀ t ∈ s.tasks, ¬(t.id = kid ∧ t.assigneeId = some uid)) :
    updateGoal (some uid) s gid gu = (.err "Goal not found or access denied", s) ∧
    updateGoalProgress (some uid) s gid gp = (.err "Goal not found or access denied", s) ∧
    deleteGoal (some uid) s gid = (.err "Goal not found or access denied", s) ∧
    updateTimesheetEntry (some uid) s eid eu = (.err "Entry not found or access denied", s) ∧
    deleteTimesheetEntry (some uid) s eid = (.err "Entry not found or access denied", s) ∧
    submitTimesheet (some uid) s tid = (.err "Timesheet not found or access denied", s) ∧
    updateSelfReview (some uid) s aid sr rr = (.err "Appraisal not found or access denied", s) ∧
    submitAppraisal (some uid) s aid now = (.err "Appraisal not found or access denied", s) ∧
    getAppraisalById (some uid) s aid = (.err "Appraisal not found or access denied", s) ∧
    updateTaskStatus (some uid) s kid kst = (.err "Task not found or access denied", s) ∧
    logTaskHours (some uid) s kid kh = (.err "Task not found or access denied", s) := by
  have hg' := findGoal_eq_none hg
  have he' := findOwnedEntry_eq_none he
  have ht' := findOwnedTimesheet_eq_none ht
  have ha' := findAppraisal_eq_none ha
  have hk' := findTask_eq_none hk
  refine ⟨?_, ?_, ?_, ?_, ?_, ?_, ?_, ?_, ?_, ?_, ?_⟩
  · simp [updateGoal, hg']
  · simp [updateGoalProgress, hg']
  · simp [deleteGoal, hg']
  · simp [updateTimesheetEntry, he']
  · simp [deleteTimesheetEntry, he']
  · simp [submitTimesheet, ht']
  · simp [updateSelfReview, ha']
  · simp [submitAppraisal, ha']
  · simp [getAppraisalById, ha']
  · simp [updateTaskStatus, hk']
  · simp [logTaskHours, hk']

def emptyStore : Store := ⟨[], [], [], [], [], [], [], [], 0⟩

theorem ownership_guard_witness :
    updateGoal (some "u") emptyStore "g" ⟨none, none, none, none, none⟩ =
      (.err "Goal not found or access denied", emptyStore) ∧
    updateGoalProgress (some "u") emptyStore "g" 5 =
      (.err "Goal not found or access denied", emptyStore) ∧
    deleteGoal (some "u") emptyStore "g" =
      (.err "Goal not found or access denied", emptyStore) ∧
    updateTimesheetEntry (some "u") emptyStore "e" ⟨none, none, none⟩ =
      (.err "Entry not found or access denied", emptyStore) ∧
    deleteTimesheetEntry (some "u") emptyStore "e" =
      (.err "Entry not found or access denied", emptyStore) ∧
    submitTimesheet (some "u") emptyStore "t" =
      (.err "Timesheet not found or access denied", emptyStore) ∧
    updateSelfReview (some "u") emptyStore "a" "sr" none =
      (.err "Appraisal not found or access denied", emptyStore) ∧
    submitAppraisal (some "u") emptyStore "a" ⟨0, 0⟩ =
      (.err "Appraisal not found or access denied", emptyStore) ∧
    getAppraisalById (some "u") emptyStore "a" =
      (.err "Appraisal not found or access denied", emptyStore) ∧
    updateTaskStatus (some "u") emptyStore "k" "DONE" =
      (.err "Task not found or access denied", emptyStore) ∧
    logTaskHours (some "u") emptyStore "k" 2 =
      (.err "Task not found or access denied", emptyStore) :=
  ownership_guard emptyStore "u" "g" "e" "t" "a" "k"
    ⟨none, none, none, none, none⟩ 5 ⟨none, none, none⟩ "sr" none ⟨0, 0⟩ "DONE" 2
    (by decide) (by decide) (by decide) (by decide) (by decide)

/-- C5: `updateGoalProgress` on an owned goal clamps the stored progress
(inputs below 0 store 0, above 100 store 100), an input of exactly 100
completes the goal regardless of prior status, and an input strictly
between 0 and 100 moves an "active" goal to "in-progress" while leaving
any other status unchanged. -/
theorem goal_progress_semantics (s : Store) (uid gid : String) (p : Rat)
    (g g' : Goal) (s' : Store)
    (hfind : findGoal s uid gid = some g)
    (hres : updateGoalProgress (some uid) s gid p = (.ok (some g') none, s')) :
    (p < 0 → g'.progress = 0) ∧
    (100 < p → g'.progress = 100) ∧
    (p = 100 → g'.status = "completed") ∧
    (0 < p → p < 100 →
      ((g.status = "active" → g'.status = "in-progress") ∧
       (g.status ≠ "active" → g'.status = g.status))) := by
  simp only [updateGoalProgress, hfind, Prod.mk.injEq, ActionResult.ok.injEq,
    Option.some.injEq] at hres
  obtain ⟨⟨hg', -⟩, -⟩ := hres
  subst hg'
  refine ⟨?_, ?_, ?_, ?_⟩
  · intro hp
    show max 0 (min 100 p) = 0
    rw [min_eq_right (by linarith), max_eq_left hp.le]
  · intro hp
    show max 0 (min 100 p) = 100
    rw [min_eq_left hp.le, max_eq_right (by norm_num)]
  · intro hp
    subst hp
    show (if (100:Rat) ≤ max 0 (min 100 100) then "completed"
          else if 0 < max 0 (min 100 100) ∧ g.status = "active" then "in-progress"
          else g.status) = "completed"
    rw [if_pos (by norm_num)]
  · intro hp1 hp2
    have hvp : max 0 (min 100 p) = p := by
      rw [min_eq_right hp2.le, max_eq_right hp1.le]
    constructor
    · intro hact
      show (if (100:Rat) ≤ max 0 (min 100 p) then "completed"
            else if 0 < max 0 (min 100 p) ∧ g.status = "active" then "in-progress"
            else g.status) = "in-progress"
      rw [hvp, if_neg (by linarith), if_pos ⟨hp1, hact⟩]
    · intro hact
      show (if (100:Rat) ≤ max 0 (min 100 p) then "completed"
            else if 0 < max 0 (min 100 p) ∧ g.status = "active" then "in-progress"
            else g.status) = g.status
      rw [hvp, if_neg (by linarith), if_neg (fun hc => hact hc.2)]

def c5store : Store :=
  ⟨[], [⟨"g1", "u", "T", none, none, 10, "active"⟩], [], [], [], [], [], [], 0⟩

def c5g0 : Goal := ⟨"g1", "u", "T", none, none, 10, "active"⟩

def c5g1 : Goal := ⟨"g1", "u", "T", none, none, 50, "in-progress"⟩

def c5store1 : Store := ⟨[], [c5g1], [], [], [], [], [], [], 0⟩

theorem goal_progress_semantics_witness :
    findGoal c5store "u" "g1" = some c5g0 ∧
    updateGoalProgress (some "u") c5store "g1" 50 = (.ok (some c5g1) none, c5store1) ∧
    ((50:Rat) < 0 → c5g1.progress = 0) ∧
    (100 < (50:Rat) → c5g1.progress = 100) ∧
    ((50:Rat) = 100 → c5g1.status = "completed") ∧
    ((0:Rat) < 50 → (50:Rat) < 100 →
      ((c5g0.status = "active" → c5g1.status = "in-progress") ∧
       (c5g0.status ≠ "active" → c5g1.status = c5g0.status))) := by
  have h := goal_progress_semantics c5store "u" "g1" 50 c5g0 c5g1 c5store1
    (by decide) (by decide)
  exact ⟨by decide, by decide, h.1, h.2.1, h.2.2.1, h.2.2.2⟩

/-- C4 (amended): `addTimesheetEntry` rejects an hours value outside
(0, 24] with a validation failure and writes nothing, and
`updateGoalProgress` only ever stores a progress value within [0, 100];
but `updateTimesheetEntry` applies no range check to a supplied hours
value and `updateGoal` writes a supplied progress value unvalidated
(see the counterexample). -/
theorem validation_partial :
    (∀ s uid d ed pid, d.date = some ed → d.projectId = some pid →
      (d.hours ≤ 0 ∨ 24 < d.hours) →
      addTimesheetEntry (some uid) s d = (.err "Hours must be between 0 and 24", s)) ∧
    (∀ s uid gid p g' s',
      updateGoalProgress (some uid) s gid p = (.ok (some g') none, s') →
      0 ≤ g'.progress ∧ g'.progress ≤ 100) := by
  constructor
  · intro s uid d ed pid hd hp hh
    simp only [addTimesheetEntry, hd, hp, if_pos hh]
  · intro s uid gid p g' s' hres
    cases hfind : findGoal s uid gid with
    | none => simp [updateGoalProgress, hfind] at hres
    | some g =>
      simp only [updateGoalProgress, hfind, Prod.mk.injEq, ActionResult.ok.injEq,
        Option.some.injEq] at hres
      obtain ⟨⟨hg', -⟩, -⟩ := hres
      subst hg'
      exact ⟨le_max_left _ _, max_le (by norm_num) (min_le_left _ _)⟩

def c4store : Store :=
  ⟨[], [⟨"g1", "u", "T", none, none, 10, "active"⟩],
   [⟨"t1", "u", ⟨0, 0⟩, ⟨6, 86399999⟩, 5, .DRAFT⟩],
   [⟨"e1", "t1", ⟨1, 0⟩, "p", 5, none, false⟩], [], [], [], [], 0⟩

/-- C4 fails as stated: an `updateTimesheetEntry` payload with hours = 25
(outside (0, 24]) succeeds and writes 25 into the store, and an
`updateGoal` payload with progress = 150 stores 150 (outside [0, 100]). -/
theorem validation_counterexample :
    (updateTimesheetEntry (some "u") c4store "e1" ⟨some 25, none, none⟩).1 =
      .ok (some ⟨"e1", "t1", ⟨1, 0⟩, "p", 25, none, false⟩) none ∧
    (updateTimesheetEntry (some "u") c4store "e1" ⟨some 25, none, none⟩).2.entries =
      [⟨"e1", "t1", ⟨1, 0⟩, "p", 25, none, false⟩] ∧
    (updateGoal (some "u") c4store "g1" ⟨none, none, none, some 150, none⟩).1 =
      .ok (some ⟨"g1", "u", "T", none, none, 150, "active"⟩) none ∧
    (updateGoal (some "u") c4store "g1" ⟨none, none, none, some 150, none⟩).2.goals =
      [⟨"g1", "u", "T", none, none, 150, "active"⟩] := by decide

def c4input : AddEntryInput := ⟨some ⟨1, 0⟩, some "p", 25, none, none⟩

def c4gclamped : Goal := ⟨"g1", "u", "T", none, none, 100, "completed"⟩

def c4store150 : Store :=
  ⟨[], [c4gclamped],
   [⟨"t1", "u", ⟨0, 0⟩, ⟨6, 86399999⟩, 5, .DRAFT⟩],
   [⟨"e1", "t1", ⟨1, 0⟩, "p", 5, none, false⟩], [], [], [], [], 0⟩

theorem validation_partial_witness :
    c4input.date = some ⟨1, 0⟩ ∧
    c4input.projectId = some "p" ∧
    (c4input.hours ≤ 0 ∨ 24 < c4input.hours) ∧
    addTimesheetEntry (some "u") emptyStore c4input =
      (.err "Hours must be between 0 and 24", emptyStore) ∧
    updateGoalProgress (some "u") c4store "g1" 150 =
      (.ok (some c4gclamped) none, c4store150) ∧
    (0 ≤ c4gclamped.progress ∧ c4gclamped.progress ≤ 100) :=
  ⟨rfl, rfl, by norm_num [c4input],
   validation_partial.1 emptyStore "u" c4input ⟨1, 0⟩ "p" rfl rfl (by norm_num [c4input]),
   by decide,
   validation_partial.2 c4store "u" "g1" 150 c4gclamped c4store150 (by decide)⟩

/-- C6: an APPROVED timesheet is never modified through the entry-mutation
handlers: whenever the resolved parent timesheet is APPROVED, each of
`addTimesheetEntry`, `updateTimesheetEntry` and `deleteTimesheetEntry`
fails and leaves the store (entry set and totalHours included) unchanged. -/
theorem approved_locked :
    (∀ s uid d ed ts, d.date = some ed →
      s.timesheets.find? (fun t => t.userId == uid && t.weekStart == weekStartOf ed) =
        some ts →
      ts.status = .APPROVED →
      (addTimesheetEntry (some uid) s d).1.isErr = true ∧
      (addTimesheetEntry (some uid) s d).2 = s) ∧
    (∀ s uid eid u e t, findOwnedEntry s uid eid = some (e, t) →
      t.status = .APPROVED →
      updateTimesheetEntry (some uid) s eid u =
        (.err "Cannot edit approved timesheet", s)) ∧
    (∀ s uid eid e t, findOwnedEntry s uid eid = some (e, t) →
      t.status = .APPROVED →
      deleteTimesheetEntry (some uid) s eid =
        (.err "Cannot delete from approved timesheet", s)) := by
  have hbeq : ∀ ts : Timesheet, ts.status = .APPROVED →
      (ts.status == TimesheetStatus.APPROVED) = true := by
    intro ts h
    simp [h]
  refine ⟨?_, ?_, ?_⟩
  · intro s uid d ed ts hd hfind happ
    cases hp : d.projectId with
    | none =>
      constructor
      · show (addTimesheetEntry (some uid) s d).1.isErr = true
        simp only [addTimesheetEntry, hd, hp]
        rfl
      · show (addTimesheetEntry (some uid) s d).2 = s
        simp only [addTimesheetEntry, hd, hp]
    | some pid =>
      by_cases hh : d.hours ≤ 0 ∨ 24 < d.hours
      · constructor
        · simp only [addTimesheetEntry, hd, hp, if_pos hh]
          rfl
        · simp only [addTimesheetEntry, hd, hp, if_pos hh]
      · constructor
        · simp only [addTimesheetEntry, hd, hp, if_neg hh, hfind, addEntryCore,
            if_pos (hbeq ts happ)]
          rfl
        · simp only [addTimesheetEntry, hd, hp, if_neg hh, hfind, addEntryCore,
            if_pos (hbeq ts happ)]
  · intro s uid eid u e t hfind happ
    simp only [updateTimesheetEntry, hfind, if_pos (hbeq t happ)]
  · intro s uid eid e t hfind happ
    simp only [deleteTimesheetEntry, hfind, if_pos (hbeq t happ)]

def c6ts : Timesheet := ⟨"t1", "u", ⟨18995, 0⟩, ⟨19001, 86399999⟩, 5, .APPROVED⟩

def c6entry : TimesheetEntry := ⟨"e1", "t1", ⟨19000, 0⟩, "p", 5, none, false⟩

def c6store : Store := ⟨[], [], [c6ts], [c6entry], [], [], [], [], 0⟩

def c6input : AddEntryInput := ⟨some ⟨19000, 0⟩, some "p", 3, none, none⟩

theorem approved_locked_witness :
    c6input.date = some ⟨19000, 0⟩ ∧
    c6store.timesheets.find?
      (fun t => t.userId == "u" && t.weekStart == weekStartOf ⟨19000, 0⟩) = some c6ts ∧
    c6ts.status = .APPROVED ∧
    (addTimesheetEntry (some "u") c6store c6input).1.isErr = true ∧
    (addTimesheetEntry (some "u") c6store c6input).2 = c6store ∧
    findOwnedEntry c6store "u" "e1" = some (c6entry, c6ts) ∧
    updateTimesheetEntry (some "u") c6store "e1" ⟨some 4, none, none⟩ =
      (.err "Cannot edit approved timesheet", c6store) ∧
    deleteTimesheetEntry (some "u") c6store "e1" =
      (.err "Cannot delete from approved timesheet", c6store) :=
  ⟨rfl, by decide, rfl,
   (approved_locked.1 c6store "u" c6input ⟨19000, 0⟩ c6ts rfl (by decide) rfl).1,
   (approved_locked.1 c6store "u" c6input ⟨19000, 0⟩ c6ts rfl (by decide) rfl).2,
   by decide,
   approved_locked.2.1 c6store "u" "e1" ⟨some 4, none, none⟩ c6entry c6ts (by decide) rfl,
   approved_locked.2.2 c6store "u" "e1" c6entry c6ts (by decide) rfl⟩

/-- After the shared aggregate-recomputation step, every timesheet carrying
the recomputed id stores exactly the sum of its current entries' hours. -/
theorem recompute_invariant (s : Store) (tsId : String) :
    ∀ ts ∈ (recomputeTotal s tsId).timesheets, ts.id = tsId →
      ts.totalHours = sumHours (recomputeTotal s tsId).entries ts.id := by
  intro ts hmem hid
  simp only [recomputeTotal, setTotalHours, List.mem_map] at hmem
  obtain ⟨t', -, hts⟩ := hmem
  subst hts
  by_cases h : (t'.id == tsId) = true
  · rw [if_pos h] at hid ⊢
    have hid' : t'.id = tsId := hid
    show sumHours s.entries tsId = sumHours (recomputeTotal s tsId).entries t'.id
    rw [hid']
    rfl
  · rw [if_neg h] at hid
    exact absurd (by simp [hid]) h

theorem addEntryCore_invariant (s1 : Store) (t : Timesheet) (ed : DateTime)
    (pid : String) (d : AddEntryInput) (e : TimesheetEntry) (s' : Store)
    (hres : addEntryCore s1 t ed pid d = (.ok (some e) none, s')) :
    ∀ ts ∈ s'.timesheets, ts.id = e.timesheetId →
      ts.totalHours = sumHours s'.entries ts.id := by
  by_cases h : t.status = TimesheetStatus.APPROVED
  · simp [addEntryCore, h] at hres
  · simp only [addEntryCore, beq_iff_eq, if_neg h, Prod.mk.injEq, ActionResult.ok.injEq,
      Option.some.injEq] at hres
    obtain ⟨⟨he, -⟩, hs⟩ := hres
    subst hs
    subst he
    intro ts hmem hid
    exact recompute_invariant _ t.id ts hmem hid

/-- C3: each successful timesheet-entry mutation (add, update, delete)
leaves the parent timesheet's stored totalHours equal to the sum of the
hours of the entries currently belonging to it (0 when none remain). -/
theorem total_hours_invariant :
    (∀ s uid d e s', addTimesheetEntry (some uid) s d = (.ok (some e) none, s') →
      ∀ ts ∈ s'.timesheets, ts.id = e.timesheetId →
        ts.totalHours = sumHours s'.entries ts.id) ∧
    (∀ s uid eid u e s',
      updateTimesheetEntry (some uid) s eid u = (.ok (some e) none, s') →
      ∀ ts ∈ s'.timesheets, ts.id = e.timesheetId →
        ts.totalHours = sumHours s'.entries ts.id) ∧
    (∀ s uid eid e t s', findOwnedEntry s uid eid = some (e, t) →
      deleteTimesheetEntry (some uid) s eid = (.ok none none, s') →
      ∀ ts ∈ s'.timesheets, ts.id = e.timesheetId →
        ts.totalHours = sumHours s'.entries ts.id) := by
  refine ⟨?_, ?_, ?_⟩
  · intro s uid d e s' hres
    cases hd : d.date with
    | none => simp [addTimesheetEntry, hd] at hres
    | some ed =>
      cases hp : d.projectId with
      | none => simp [addTimesheetEntry, hd, hp] at hres
      | some pid =>
        by_cases hh : d.hours ≤ 0 ∨ 24 < d.hours
        · simp [addTimesheetEntry, hd, hp, if_pos hh] at hres
        · cases hfind : s.timesheets.find?
              (fun t => t.userId == uid && t.weekStart == weekStartOf ed) with
          | some t =>
            exact addEntryCore_invariant _ _ _ _ _ _ _
              (by simpa only [addTimesheetEntry, hd, hp, if_neg hh, hfind] using hres)
          | none =>
            exact addEntryCore_invariant _ _ _ _ _ _ _
              (by simpa only [addTimesheetEntry, hd, hp, if_neg hh, hfind] using hres)
  · intro s uid eid u e s' hres
    cases hfind : findOwnedEntry s uid eid with
    | none => simp [updateTimesheetEntry, hfind] at hres
    | some et =>
      obtain ⟨e0, t0⟩ := et
      by_cases h : t0.status = TimesheetStatus.APPROVED
      · simp [updateTimesheetEntry, hfind, h] at hres
      · simp only [updateTimesheetEntry, hfind, beq_iff_eq, if_neg h, Prod.mk.injEq,
          ActionResult.ok.injEq, Option.some.injEq] at hres
        obtain ⟨⟨he, -⟩, hs⟩ := hres
        subst hs
        subst he
        intro ts hmem hid
        exact recompute_invariant _ e0.timesheetId ts hmem hid
  · intro s uid eid e t s' hfind hres
    by_cases h : t.status = TimesheetStatus.APPROVED
    · simp [deleteTimesheetEntry, hfind, h] at hres
    · simp only [deleteTimesheetEntry, hfind, beq_iff_eq, if_neg h, Prod.mk.injEq,
        ActionResult.ok.injEq] at hres
      obtain ⟨-, hs⟩ := hres
      subst hs
      intro ts hmem hid
      exact recompute_invariant _ e.timesheetId ts hmem hid

def c3tsA : Timesheet := ⟨"t1", "u", ⟨18995, 0⟩, ⟨19001, 86399999⟩, 0, .DRAFT⟩

def c3sA : Store := ⟨[], [], [c3tsA], [], [], [], [], [], 0⟩

def c3inpA : AddEntryInput := ⟨some ⟨19000, 0⟩, some "p", 2, none, none⟩

def c3eA : TimesheetEntry := ⟨"rec-0", "t1", ⟨19000, 0⟩, "p", 2, none, false⟩

def c3tsA1 : Timesheet := ⟨"t1", "u", ⟨18995, 0⟩, ⟨19001, 86399999⟩, 2, .DRAFT⟩

def c3sA1 : Store := ⟨[], [], [c3tsA1], [c3eA], [], [], [], [], 1⟩

def c3tB : Timesheet := ⟨"t1", "u", ⟨0, 0⟩, ⟨6, 86399999⟩, 5, .DRAFT⟩

def c3eB : TimesheetEntry := ⟨"e1", "t1", ⟨1, 0⟩, "p", 5, none, false⟩

def c3sB : Store := ⟨[], [], [c3tB], [c3eB], [], [], [], [], 0⟩

def c3eB1 : TimesheetEntry := ⟨"e1", "t1", ⟨1, 0⟩, "p", 3, none, false⟩

def c3tB1 : Timesheet := ⟨"t1", "u", ⟨0, 0⟩, ⟨6, 86399999⟩, 3, .DRAFT⟩

def c3sB1 : Store := ⟨[], [], [c3tB1], [c3eB1], [], [], [], [], 0⟩

def c3eC2 : TimesheetEntry := ⟨"e2", "t1", ⟨2, 0⟩, "q", 3, none, false⟩

def c3sC : Store := ⟨[], [], [c3tB], [c3eB, c3eC2], [], [], [], [], 0⟩

def c3sC1 : Store := ⟨[], [], [c3tB1], [c3eC2], [], [], [], [], 0⟩

unseal Rat.add in
theorem total_hours_invariant_witness :
    addTimesheetEntry (some "u") c3sA c3inpA = (.ok (some c3eA) none, c3sA1) ∧
    c3tsA1.totalHours = sumHours c3sA1.entries c3tsA1.id ∧
    updateTimesheetEntry (some "u") c3sB "e1" ⟨some 3, none, none⟩ =
      (.ok (some c3eB1) none, c3sB1) ∧
    c3tB1.totalHours = sumHours c3sB1.entries c3tB1.id ∧
    findOwnedEntry c3sC "u" "e1" = some (c3eB, c3tB) ∧
    deleteTimesheetEntry (some "u") c3sC "e1" = (.ok none none, c3sC1) ∧
    c3tB1.totalHours = sumHours c3sC1.entries c3tB1.id :=
  ⟨by rfl,
   total_hours_invariant.1 c3sA "u" c3inpA c3eA c3sA1 (by rfl) c3tsA1
     (by decide) (by decide),
   by rfl,
   total_hours_invariant.2.1 c3sB "u" "e1" ⟨some 3, none, none⟩ c3eB1 c3sB1
     (by rfl) c3tB1 (by decide) (by decide),
   by decide,
   by rfl,
   total_hours_invariant.2.2 c3sC "u" "e1" c3eB c3tB c3sC1 (by decide) (by rfl)
     c3tB1 (by decide) (by rfl)⟩

/- Helper lemmas for the calendar aggregation claim. -/

theorem ptoDays_cons (c e : DateTime) (h : c.time ≤ e.time) :
    ptoDays c e = c :: ptoDays (c.addDays 1) e := by
  conv_lhs => rw [ptoDays.eq_def]
  rw [if_pos h]

theorem ptoDays_nil (c e : DateTime) (h : ¬ c.time ≤ e.time) :
    ptoDays c e = [] := by
  conv_lhs => rw [ptoDays.eq_def]
  rw [if_neg h]

theorem ptoDays_three (st en : DateTime) (h1 : en.day = st.day + 2)
    (h2 : en.ms = st.ms) :
    ptoDays st en = [st, st.addDays 1, (st.addDays 1).addDays 1] := by
  have t0 : st.time ≤ en.time := by
    simp only [DateTime.time, h1, h2]
    omega
  have t1 : (st.addDays 1).time ≤ en.time := by
    simp only [DateTime.time, DateTime.addDays, h1, h2]
    omega
  have t2 : ((st.addDays 1).addDays 1).time ≤ en.time := by
    simp only [DateTime.time, DateTime.addDays, h1, h2]
    omega
  have t3 : ¬ (((st.addDays 1).addDays 1).addDays 1).time ≤ en.time := by
    simp only [DateTime.time, DateTime.addDays, h1, h2]
    omega
  rw [ptoDays_cons _ _ t0, ptoDays_cons _ _ t1, ptoDays_cons _ _ t2, ptoDays_nil _ _ t3]

theorem taskEvents_type (s : Store) (uid : String) (a b : DateTime) :
    ∀ e ∈ taskEvents s uid a b, e.etype = "task" := by
  intro e he
  simp only [taskEvents, List.mem_map] at he
  obtain ⟨t, -, rfl⟩ := he
  rfl

theorem apprEvents_type (s : Store) (uid : String) (a b : DateTime) :
    ∀ e ∈ apprEvents s uid a b, e.etype = "appraisal" := by
  intro e he
  simp only [apprEvents, List.mem_map] at he
  obtain ⟨rc, -, rfl⟩ := he
  rfl

theorem ptoEvents_type (s : Store) (uid : String) (a b : DateTime) :
    ∀ e ∈ ptoEvents s uid a b, e.etype = "pto" := by
  intro e he
  simp only [ptoEvents, List.mem_flatMap, List.mem_map] at he
  obtain ⟨p, -, d, -, rfl⟩ := he
  rfl

/-- C8: for a query window holding exactly one due task of the caller, one
appraisal review whose cycle ends in the window, and one approved
three-day PTO span lying entirely inside the window, the calendar handler
returns success with exactly 1 task event, 1 appraisal event and 3 PTO
events (one per day), and the returned list is sorted ascending by date. -/
theorem calendar_scenario (s : Store) (uid : String) (a b now : DateTime)
    (tk : Task) (pr : PTORequest)
    (h1 : s.tasks.filter (fun t => t.assigneeId == some uid &&
        (match t.dueDate with | some d => inWindow a b d | none => false)) = [tk])
    (h2 : (apprJoin s uid a b).length = 1)
    (h3 : s.ptoRequests.filter (fun p => p.userId == uid && p.status == "APPROVED" &&
        (inWindow a b p.startDate || inWindow a b p.endDate)) = [pr])
    (hp1 : pr.endDate.day = pr.startDate.day + 2)
    (hp2 : pr.endDate.ms = pr.startDate.ms)
    (hp3 : a.time ≤ pr.startDate.time)
    (hp4 : pr.endDate.time ≤ b.time) :
    getMyCalendarEvents (some uid) s (some a) (some b) now =
      (.ok (some (calendarData s uid a b)) none, s) ∧
    (calendarData s uid a b).countP (fun e => e.etype == "task") = 1 ∧
    (calendarData s uid a b).countP (fun e => e.etype == "appraisal") = 1 ∧
    (calendarData s uid a b).countP (fun e => e.etype == "pto") = 3 ∧
    (calendarData s uid a b).length = 5 ∧
    List.Sorted evLe (calendarData s uid a b) := by
  have htlen : (taskEvents s uid a b).length = 1 := by
    rw [taskEvents, h1]
    rfl
  have halen : (apprEvents s uid a b).length = 1 := by
    rw [apprEvents, List.length_map]
    exact h2
  have hspan : pr.startDate.time ≤ pr.endDate.time := by
    simp only [DateTime.time, hp1, hp2]
    omega
  have hd0 : inWindow a b pr.startDate = true := by
    simp only [inWindow, Bool.and_eq_true, decide_eq_true_eq]
    exact ⟨hp3, le_trans hspan hp4⟩
  have hd1 : inWindow a b (pr.startDate.addDays 1) = true := by
    simp only [inWindow, Bool.and_eq_true, decide_eq_true_eq, DateTime.addDays,
      DateTime.time] at hp3 hp4 ⊢
    simp only [DateTime.time, hp1, hp2] at *
    omega
  have hd2 : inWindow a b ((pr.startDate.addDays 1).addDays 1) = true := by
    simp only [inWindow, Bool.and_eq_true, decide_eq_true_eq, DateTime.addDays,
      DateTime.time] at hp3 hp4 ⊢
    simp only [DateTime.time, hp1, hp2] at *
    omega
  have hdays := ptoDays_three pr.startDate pr.endDate hp1 hp2
  have hplen : (ptoEvents s uid a b).length = 3 := by
    rw [ptoEvents, h3]
    simp only [List.flatMap_cons, List.flatMap_nil, List.append_nil, List.length_map]
    rw [hdays]
    simp [List.filter, hd0, hd1, hd2]
  have hperm := List.perm_insertionSort evLe
    (taskEvents s uid a b ++ apprEvents s uid a b ++ ptoEvents s uid a b)
  have hct : ∀ p : CalendarEvent → Bool,
      (calendarData s uid a b).countP p =
        (taskEvents s uid a b).countP p + (apprEvents s uid a b).countP p +
          (ptoEvents s uid a b).countP p := by
    intro p
    rw [calendarData, hperm.countP_eq, List.countP_append, List.countP_append]
  refine ⟨rfl, ?_, ?_, ?_, ?_, ?_⟩
  · rw [hct]
    have c1 : (taskEvents s uid a b).countP (fun e => e.etype == "task") =
        (taskEvents s uid a b).length :=
      List.countP_eq_length.mpr (fun e he => by simp [taskEvents_type s uid a b e he])
    have c2 : (apprEvents s uid a b).countP (fun e => e.etype == "task") = 0 :=
      List.countP_eq_zero.mpr (fun e he => by simp [apprEvents_type s uid a b e he])
    have c3 : (ptoEvents s uid a b).countP (fun e => e.etype == "task") = 0 :=
      List.countP_eq_zero.mpr (fun e he => by simp [ptoEvents_type s uid a b e he])
    rw [c1, c2, c3, htlen]
  · rw [hct]
    have c1 : (taskEvents s uid a b).countP (fun e => e.etype == "appraisal") = 0 :=
      List.countP_eq_zero.mpr (fun e he => by simp [taskEvents_type s uid a b e he])
    have c2 : (apprEvents s uid a b).countP (fun e => e.etype == "appraisal") =
        (apprEvents s uid a b).length :=
      List.countP_eq_length.mpr (fun e he => by simp [apprEvents_type s uid a b e he])
    have c3 : (ptoEvents s uid a b).countP (fun e => e.etype == "appraisal") = 0 :=
      List.countP_eq_zero.mpr (fun e he => by simp [ptoEvents_type s uid a b e he])
    rw [c1, c2, c3, halen]
  · rw [hct]
    have c1 : (taskEvents s uid a b).countP (fun e => e.etype == "pto") = 0 :=
      List.countP_eq_zero.mpr (fun e he => by simp [taskEvents_type s uid a b e he])
    have c2 : (apprEvents s uid a b).countP (fun e => e.etype == "pto") = 0 :=
      List.countP_eq_zero.mpr (fun e he => by simp [apprEvents_type s uid a b e he])
    have c3 : (ptoEvents s uid a b).countP (fun e => e.etype == "pto") =
        (ptoEvents s uid a b).length :=
      List.countP_eq_length.mpr (fun e he => by simp [ptoEvents_type s uid a b e he])
    rw [c1, c2, c3, hplen]
  · rw [calendarData, hperm.length_eq, List.length_append, List.length_append,
      htlen, halen, hplen]
  · rw [calendarData]
    exact List.sorted_insertionSort evLe _

def c8a : DateTime := ⟨100, 0⟩

def c8b : DateTime := ⟨200, 0⟩

def c8task : Task :=
  ⟨"t1", "T", none, "TODO", "HIGH", some ⟨150, 0⟩, none, some "u", none, none⟩

def c8cycle : AppraisalCycle := ⟨"c1", "C", ⟨1, 0⟩, ⟨160, 0⟩⟩

def c8review : AppraisalReview := ⟨"a1", "u", "c1", none, none, .DRAFT, none⟩

def c8pto : PTORequest := ⟨"p1", "u", ⟨120, 0⟩, ⟨122, 0⟩, "APPROVED", "VACATION", none⟩

def c8store : Store :=
  ⟨[], [], [], [], [c8review], [c8cycle], [c8task], [c8pto], 0⟩

theorem calendar_scenario_witness :
    c8store.tasks.filter (fun t => t.assigneeId == some "u" &&
      (match t.dueDate with | some d => inWindow c8a c8b d | none => false)) =
      [c8task] ∧
    (apprJoin c8store "u" c8a c8b).length = 1 ∧
    c8store.ptoRequests.filter (fun p => p.userId == "u" && p.status == "APPROVED" &&
      (inWindow c8a c8b p.startDate || inWindow c8a c8b p.endDate)) = [c8pto] ∧
    getMyCalendarEvents (some "u") c8store (some c8a) (some c8b) ⟨0, 0⟩ =
      (.ok (some (calendarData c8store "u" c8a c8b)) none, c8store) ∧
    (calendarData c8store "u" c8a c8b).countP (fun e => e.etype == "task") = 1 ∧
    (calendarData c8store "u" c8a c8b).countP (fun e => e.etype == "appraisal") = 1 ∧
    (calendarData c8store "u" c8a c8b).countP (fun e => e.etype == "pto") = 3 ∧
    (calendarData c8store "u" c8a c8b).length = 5 ∧
    List.Sorted evLe (calendarData c8store "u" c8a c8b) := by
  have h := calendar_scenario c8store "u" c8a c8b ⟨0, 0⟩ c8task c8pto
    (by decide) (by decide) (by decide) (by decide) (by decide) (by decide) (by decide)
  exact ⟨by decide, by decide, by decide, h.1, h.2.1, h.2.2.1, h.2.2.2.1,
    h.2.2.2.2.1, h.2.2.2.2.2⟩

end PMT
